import Mathlib

/-!
A shallow embedding of the single C++ source file of the repository
(src/main.cpp), which contains two pedagogical demos:

* a Shape/Draw demo: `Point`, abstract `Shape` with concrete `Circle` and
  `Square`, and a `DrwManager` holding a list of shapes and drawing them;
* a Phone abstract-factory demo: `Phone` products split into the
  Smartphone and BasicPhone families, six concrete products
  (manufacturer times family), three concrete factories, and a driver
  loop in `main` that iterates indices 0, 1, 2.

Console output is modelled as a list of printed lines (each C++
`std::cout << ... << "\n"` contributes one string).  The dynamic type of
a `Shape` (the C++ vtable) is modelled by the `kind` field; the `type`
string field is the data member written by the constructors, exactly as
in the source (`Shape`'s constructor writes "BaseFigure", the derived
constructors overwrite it).  The locals of the driver loop that C++
leaves as null `shared_ptr`s until the `switch` assigns them are
modelled with `Option`.
-/

structure Point where
  x : Int
  y : Int
  deriving DecidableEq

/-- The dynamic (vtable) type of a shape together with the extra data
member the derived class adds (`radius` for circles, `side` for
squares). -/
inductive ShapeKind where
  | circle (radius : Int)
  | square (side : Int)
  deriving DecidableEq

structure Shape where
  center : Point
  type : String
  kind : ShapeKind
  deriving DecidableEq

/-- The `Shape(Point c)` base-class constructor: stores the center and
sets `type` to "BaseFigure".  The dynamic kind is the one of the derived
object under construction. -/
def Shape.base (c : Point) (k : ShapeKind) : Shape :=
  { center := c, type := "BaseFigure", kind := k }

/-- The `Circle(Point cnt, int r)` constructor: runs the base
constructor, stores the radius, and overwrites `type` with "Circle". -/
def Circle.new (cnt : Point) (r : Int) : Shape :=
  { Shape.base cnt (ShapeKind.circle r) with type := "Circle" }

/-- The `Square(Point cnt, int r)` constructor: runs the base
constructor, stores the side, and overwrites `type` with "Square". -/
def Square.new (cnt : Point) (r : Int) : Shape :=
  { Shape.base cnt (ShapeKind.square r) with type := "Square" }

/-- `Shape::GetType`: returns the stored `type` string. -/
def Shape.GetType (s : Shape) : String := s.type

/-- The virtual `Draw` method: each override prints one fixed line. -/
def Shape.Draw (s : Shape) : String :=
  match s.kind with
  | ShapeKind.circle _ => "Draw Circle!"
  | ShapeKind.square _ => "Draw Square!"

structure DrwManager where
  shapeList : List Shape
  deriving DecidableEq

/-- The `DrwManager()` constructor: pushes back one Square and one
Circle, both at `Point p(0, 0)` with size 3, in that order. -/
def DrwManager.new : DrwManager :=
  let p : Point := { x := 0, y := 0 }
  { shapeList := [Square.new p 3, Circle.new p 3] }

/-- `DrwManager::drawShapes`: iterates `shapeList` in order calling
`Draw` on each element; the body never modifies `shapeList`, so the
resulting manager state is returned unchanged alongside the printed
lines. -/
def DrwManager.drawShapes (m : DrwManager) : List String × DrwManager :=
  (m.shapeList.map Shape.Draw, m)

/-- The two product families of the phone demo: the abstract classes
`Smartphone` and `BasicPhone`, both deriving from `Phone`. -/
inductive Family where
  | Smartphone
  | BasicPhone
  deriving DecidableEq

/-- The six concrete phone products, one per (manufacturer, family)
pair; each stores the name string passed to its constructor. -/
inductive PhoneProduct where
  | NokiaSmartphone (name : String)
  | NokiaBasicPhone (name : String)
  | SamsungSmartphone (name : String)
  | SamsungBasicPhone (name : String)
  | HTCSmartphone (name : String)
  | HTCBasicPhone (name : String)
  deriving DecidableEq

/-- The virtual `getName` method: every concrete product returns the
stored name unmodified. -/
def PhoneProduct.getName : PhoneProduct → String
  | PhoneProduct.NokiaSmartphone n => n
  | PhoneProduct.NokiaBasicPhone n => n
  | PhoneProduct.SamsungSmartphone n => n
  | PhoneProduct.SamsungBasicPhone n => n
  | PhoneProduct.HTCSmartphone n => n
  | PhoneProduct.HTCBasicPhone n => n

/-- The family (static base class) of each concrete product. -/
def PhoneProduct.family : PhoneProduct → Family
  | PhoneProduct.NokiaSmartphone _ => Family.Smartphone
  | PhoneProduct.SamsungSmartphone _ => Family.Smartphone
  | PhoneProduct.HTCSmartphone _ => Family.Smartphone
  | PhoneProduct.NokiaBasicPhone _ => Family.BasicPhone
  | PhoneProduct.SamsungBasicPhone _ => Family.BasicPhone
  | PhoneProduct.HTCBasicPhone _ => Family.BasicPhone

/-- The three concrete factories (each is stateless). -/
inductive PhoneFactory where
  | NokiaFactory
  | SamsungFactory
  | HTCFactory
  deriving DecidableEq

/-- Virtual `createSmartphone`: each factory constructs its
manufacturer's smartphone with the given name. -/
def PhoneFactory.createSmartphone : PhoneFactory → String → PhoneProduct
  | PhoneFactory.NokiaFactory, n => PhoneProduct.NokiaSmartphone n
  | PhoneFactory.SamsungFactory, n => PhoneProduct.SamsungSmartphone n
  | PhoneFactory.HTCFactory, n => PhoneProduct.HTCSmartphone n

/-- Virtual `createBasicPhone`: each factory constructs its
manufacturer's basic phone with the given name. -/
def PhoneFactory.createBasicPhone : PhoneFactory → String → PhoneProduct
  | PhoneFactory.NokiaFactory, n => PhoneProduct.NokiaBasicPhone n
  | PhoneFactory.SamsungFactory, n => PhoneProduct.SamsungBasicPhone n
  | PhoneFactory.HTCFactory, n => PhoneProduct.HTCBasicPhone n

/-- The `switch (i)` statement of one driver-loop iteration.  It
assigns the three null-initialised `shared_ptr` locals (`factory`,
`smartphone`, `basicPhone`) and the string `man` in cases 0, 1, 2; for
any other index the locals stay null, modelled by `none`. -/
def switchAssign : Nat → Option (PhoneFactory × PhoneProduct × PhoneProduct × String)
  | 0 => some (PhoneFactory.NokiaFactory,
      PhoneFactory.createSmartphone PhoneFactory.NokiaFactory "Nokia Smartphone",
      PhoneFactory.createBasicPhone PhoneFactory.NokiaFactory "Nokia Basic Phone",
      "Nokia")
  | 1 => some (PhoneFactory.SamsungFactory,
      PhoneFactory.createSmartphone PhoneFactory.SamsungFactory "Samsung Smartphone",
      PhoneFactory.createBasicPhone PhoneFactory.SamsungFactory "Samsung Basic Phone",
      "Samsung")
  | 2 => some (PhoneFactory.HTCFactory,
      PhoneFactory.createSmartphone PhoneFactory.HTCFactory "HTC Smartphone",
      PhoneFactory.createBasicPhone PhoneFactory.HTCFactory "HTC Basic Phone",
      "HTC")
  | _ => none

/-- The three `std::cout` lines of one driver-loop iteration.  They
dereference `smartphone` and `basicPhone`; if the `switch` left the
locals null this is undefined behaviour, modelled by `none`. -/
def iterLines (i : Nat) : Option (List String) :=
  (switchAssign i).map fun x =>
    ["Manufacturer: " ++ x.2.2.2,
     "Smarphone: " ++ x.2.1.getName,
     "Basic phone: " ++ x.2.2.1.getName]

/-- The whole `main`: the `for (int i = 0; i < 3; ++i)` loop followed by
`return 0`.  The result is the list of printed lines paired with the
exit code, or `none` on a null dereference.  Note `main` never
constructs a `DrwManager` and never calls `drawShapes`. -/
def mainRun : Option (List String × Int) := do
  let l0 ← iterLines 0
  let l1 ← iterLines 1
  let l2 ← iterLines 2
  pure (l0 ++ l1 ++ l2, 0)

/-- The lines `main` prints (empty if it crashed). -/
def mainLines : List String :=
  match mainRun with
  | some (ls, _) => ls
  | none => []

/-- The program as a function of its process inputs.  `main` takes no
arguments, reads neither standard input nor the environment, so the run
ignores all three. -/
def programRun (_stdin : List String) (_argv : List String)
    (_env : List (String × String)) : Option (List String × Int) :=
  mainRun

/-- Claim C1 counterexample: the executable's standard output exists
(the run completes) but contains neither `Draw Square!` nor
`Draw Circle!`, because `main` never constructs a `DrwManager`; so the
claim that the output includes those two lines is false. -/
theorem main_output_has_no_shape_lines :
    mainRun.isSome = true ∧
    "Draw Square!" ∉ mainLines ∧ "Draw Circle!" ∉ mainLines := by
  decide

/-- Claim C1 (amended): running the executable produces standard output
that does not include the shape demo lines; `Draw Square!` followed by
`Draw Circle!` is produced only by `DrwManager.drawShapes`, which the
entry point never calls — a freshly constructed `DrwManager`'s
`drawShapes` prints exactly those two lines in that order. -/
theorem shape_lines_only_from_drawShapes :
    "Draw Square!" ∉ mainLines ∧ "Draw Circle!" ∉ mainLines ∧
    (DrwManager.new.drawShapes).1 = ["Draw Square!", "Draw Circle!"] := by
  decide

/-- Claim C2: the phone demo prints exactly 9 lines, three per
manufacturer in the fixed order Nokia, Samsung, HTC, with the switch
mapping index 0 to the Nokia factory, 1 to Samsung and 2 to HTC, and
the second label of each triple literally spelled "Smarphone". -/
theorem phone_demo_output :
    mainLines.length = 9 ∧
    mainLines =
      ["Manufacturer: Nokia",
       "Smarphone: Nokia Smartphone",
       "Basic phone: Nokia Basic Phone",
       "Manufacturer: Samsung",
       "Smarphone: Samsung Smartphone",
       "Basic phone: Samsung Basic Phone",
       "Manufacturer: HTC",
       "Smarphone: HTC Smartphone",
       "Basic phone: HTC Basic Phone"] ∧
    (switchAssign 0).map Prod.fst = some PhoneFactory.NokiaFactory ∧
    (switchAssign 1).map Prod.fst = some PhoneFactory.SamsungFactory ∧
    (switchAssign 2).map Prod.fst = some PhoneFactory.HTCFactory := by
  decide

/-- Claim C3: a freshly constructed `DrwManager` holds exactly one
Square and one Circle, both centered at the origin with size 3, in that
insertion order, and its `drawShapes` prints exactly `Draw Square!`
then `Draw Circle!`. -/
theorem drwManager_construction_and_draw :
    DrwManager.new.shapeList =
      [Square.new { x := 0, y := 0 } 3, Circle.new { x := 0, y := 0 } 3] ∧
    (DrwManager.new.drawShapes).1 = ["Draw Square!", "Draw Circle!"] := by
  exact ⟨rfl, rfl⟩

/-- Claim C4: for every factory and every name string (the empty string
included), the smartphone and the basic phone created with name `n`
both report exactly `n` from `getName`, unmodified. -/
theorem createdProduct_getName_identity :
    ∀ (f : PhoneFactory) (n : String),
      (f.createSmartphone n).getName = n ∧ (f.createBasicPhone n).getName = n := by
  intro f n
  cases f <;> exact ⟨rfl, rfl⟩

/-- Claim C5: for every center point and every integer size, `GetType`
of a constructed Circle is "Circle" and of a constructed Square is
"Square". -/
theorem getType_fixed_labels :
    ∀ (c : Point) (r : Int),
      (Circle.new c r).GetType = "Circle" ∧ (Square.new c r).GetType = "Square" := by
  intro c r
  exact ⟨rfl, rfl⟩

/-- Claim C6: for every concrete factory and every name, the product of
`createSmartphone` belongs to the Smartphone family, the product of
`createBasicPhone` to the BasicPhone family, and the two families
differ even when both creations receive the same name. -/
theorem product_families_distinct :
    ∀ (f : PhoneFactory) (n : String),
      (f.createSmartphone n).family = Family.Smartphone ∧
      (f.createBasicPhone n).family = Family.BasicPhone ∧
      (f.createSmartphone n).family ≠ (f.createBasicPhone n).family := by
  intro f n
  cases f <;> exact ⟨rfl, rfl, fun h => Family.noConfusion h⟩

/-- Claim C7: `drawShapes` does not mutate the manager's shape list, so
a second call on the manager resulting from the first produces exactly
the same lines in the same order. -/
theorem drawShapes_no_mutation_idempotent :
    ∀ m : DrwManager,
      (m.drawShapes).2 = m ∧
      ((m.drawShapes).2.drawShapes).1 = (m.drawShapes).1 := by
  intro m
  exact ⟨rfl, rfl⟩

/-- Claim C8: the run of `main` completes (every operation on the fixed
hard-coded inputs succeeds) and the exit code is 0. -/
theorem main_always_exits_zero :
    mainRun.isSome = true ∧ mainRun.map Prod.snd = some 0 := by
  decide

/-- Claim C9: for every loop index below 3, the switch statement
assigns the factory, smartphone and basicPhone locals (they are not
null), so the `getName` calls at the end of the iteration never
dereference a null pointer. -/
theorem switch_assigns_before_deref :
    ∀ i : Nat, i < 3 → (switchAssign i).isSome = true := by
  intro i h
  interval_cases i <;> rfl

/-- Witness for claim C9 at index 0. -/
theorem switch_assigns_before_deref_witness :
    0 < 3 ∧ (switchAssign 0).isSome = true :=
  ⟨by decide, switch_assigns_before_deref 0 (by decide)⟩

/-- Claim C10: the program reads no standard input, no arguments and no
environment, so any two runs produce identical output and identical
exit codes. -/
theorem program_deterministic :
    ∀ (s₁ a₁ e₁ s₂ a₂ e₂),
      programRun s₁ a₁ e₁ = programRun s₂ a₂ e₂ := by
  intro s₁ a₁ e₁ s₂ a₂ e₂
  rfl
